import Mathlib

/-!
Shallow embedding of the rest_faq service (Go, Gin + GORM): the FAQ/Tag data
model, the persistence-provider operations the handlers invoke, the request
handlers of src/main.go (and the variant handlers / route wiring of
src/unnamed/part_000 where they differ), and theorems settling the frozen
claims about them.

The persistence provider (GORM over SQLite) is an external collaborator of
this repository; its operations are modelled as the generic row operations
the spec describes (create row, find first live row by id, update row by id,
soft-delete row by id, eager-load the associated collection through the join
table), with soft-deleted rows excluded from all normal queries.
-/

namespace RestFAQ

/-- HTTP methods used by the route tables. -/
inductive Method
  | get | post | put | delete
deriving DecidableEq, Repr

/-- A stored `faqs` table row: mirrors Go `FAQ` (gorm.Model ID plus
`Question`, `Answer`); `deletedAt` is gorm.Model's `DeletedAt` soft-delete
timestamp, `none` while the row is live. Tag associations live in the join
table, not in the row. -/
structure FAQRow where
  id : Nat
  question : String
  answer : String
  deletedAt : Option Nat
deriving DecidableEq, Repr

/-- A stored `tags` table row: mirrors Go `Tag` (`TagName`, `Category`)
with the same soft-delete timestamp. -/
structure TagRow where
  id : Nat
  tagName : String
  category : String
  deletedAt : Option Nat
deriving DecidableEq, Repr

/-- The relational store: `faqs` and `tags` tables, the `faq_tags`
many-to-many join table of (faq id, tag id) pairs, and the provider's
next auto-assigned primary key for each table. -/
structure DB where
  faqs : List FAQRow
  tags : List TagRow
  faqTags : List (Nat × Nat)
  nextFAQId : Nat
  nextTagId : Nat
deriving DecidableEq, Repr

/-- The in-memory Go `FAQ` struct as a handler holds it: id, question,
answer, and the bound tag references (tag ids for the many2many field). -/
structure FAQRec where
  id : Nat
  question : String
  answer : String
  tags : List Nat
deriving DecidableEq, Repr

/-- The in-memory Go `Tag` struct as a handler holds it. -/
structure TagRec where
  id : Nat
  tagName : String
  category : String
deriving DecidableEq, Repr

/-- A decoded JSON body for an FAQ request: each field is `some v` when the
JSON object contains the corresponding key and `none` when it omits it,
matching encoding/json semantics where absent keys leave the target struct
field untouched. -/
structure FAQPayload where
  id : Option Nat
  question : Option String
  answer : Option String
  tags : Option (List Nat)
deriving DecidableEq, Repr

/-- A decoded JSON body for a Tag request. -/
structure TagPayload where
  id : Option Nat
  tagName : Option String
  category : Option String
deriving DecidableEq, Repr

/-- `ShouldBindJSON(&faq)` onto an already-populated struct: keys present in
the body overwrite the struct's fields (including with empty values), keys
absent leave the loaded values in place. -/
def bindFAQ (f : FAQRec) (p : FAQPayload) : FAQRec :=
  { id := p.id.getD f.id
    question := p.question.getD f.question
    answer := p.answer.getD f.answer
    tags := p.tags.getD f.tags }

/-- `ShouldBindJSON(&tag)` onto an already-populated Tag struct. -/
def bindTag (t : TagRec) (p : TagPayload) : TagRec :=
  { id := p.id.getD t.id
    tagName := p.tagName.getD t.tagName
    category := p.category.getD t.category }

/-- The zero value of the Go `FAQ` struct (`var newFAQ FAQ`). -/
def zeroFAQ : FAQRec := ⟨0, "", "", []⟩

/-- The zero value of the Go `Tag` struct (`var newTag Tag`). -/
def zeroTag : TagRec := ⟨0, "", ""⟩

/-- `db.First(&faq, id)`: the first live (not soft-deleted) `faqs` row with
the given primary key; GORM's soft-delete scope excludes deleted rows. -/
def firstLiveFAQ (db : DB) (i : Nat) : Option FAQRow :=
  db.faqs.find? fun r => r.id == i && r.deletedAt.isNone

/-- `db.First(&tag, id)`: the first live `tags` row with the given id. -/
def firstLiveTag (db : DB) (i : Nat) : Option TagRow :=
  db.tags.find? fun r => r.id == i && r.deletedAt.isNone

/-- The live rows `db.Find(&faqs)` returns (soft-deleted rows excluded). -/
def liveFAQs (db : DB) : List FAQRow :=
  db.faqs.filter fun r => r.deletedAt.isNone

/-- The live rows `db.Find(&tags)` returns. -/
def liveTags (db : DB) : List TagRow :=
  db.tags.filter fun r => r.deletedAt.isNone

/-- `Preload("Tags")` for one FAQ id: the live tag rows linked to it through
the `faq_tags` join table (soft-deleted tags are excluded by the provider's
soft-delete scope, exactly as in any other query). -/
def liveTagsOf (db : DB) (faqId : Nat) : List TagRow :=
  db.tags.filter fun t => t.deletedAt.isNone && (db.faqTags.contains (faqId, t.id))

/-- The stored row for an in-memory FAQ record (a fresh row is live). -/
def rowOfFAQ (f : FAQRec) : FAQRow := ⟨f.id, f.question, f.answer, none⟩

/-- The in-memory record a loaded row yields when associations are not
preloaded (`db.First` without `Preload` leaves `Tags` at its nil zero
value). -/
def recOfRow (r : FAQRow) : FAQRec := ⟨r.id, r.question, r.answer, []⟩

/-- The in-memory Tag record a loaded row yields. -/
def recOfTagRow (r : TagRow) : TagRec := ⟨r.id, r.tagName, r.category⟩

/-- `db.Create(&newFAQ)`: inserts an FAQ row (assigning the next id when the
record's id is the zero value) and inserts the join rows for the record's
tag references; returns the updated store and the record with its assigned
id. -/
def dbCreateFAQ (db : DB) (f : FAQRec) : DB × FAQRec :=
  let newId := if f.id = 0 then db.nextFAQId else f.id
  let f' := { f with id := newId }
  ({ db with
      faqs := db.faqs ++ [rowOfFAQ f']
      faqTags := db.faqTags ++ f'.tags.map fun t => (newId, t)
      nextFAQId := max db.nextFAQId (newId + 1) }, f')

/-- `db.Create(&newTag)`: inserts a tag row, assigning the next id when the
record's id is the zero value. -/
def dbCreateTag (db : DB) (t : TagRec) : DB × TagRec :=
  let newId := if t.id = 0 then db.nextTagId else t.id
  let t' := { t with id := newId }
  ({ db with
      tags := db.tags ++ [⟨newId, t'.tagName, t'.category, none⟩]
      nextTagId := max db.nextTagId (newId + 1) }, t')

/-- `db.Save(&faq)` with a non-zero primary key: updates every live row
whose id matches the record's id with the record's fields, and upserts the
join rows for the record's tag references (pairs already present are kept
once, per the join-table invariant). -/
def dbSaveFAQ (db : DB) (f : FAQRec) : DB :=
  { db with
      faqs := db.faqs.map fun r =>
        if r.id == f.id && r.deletedAt.isNone then
          { r with question := f.question, answer := f.answer }
        else r
      faqTags := db.faqTags ++
        (f.tags.filter fun t => !(db.faqTags.contains (f.id, t))).map fun t => (f.id, t) }

/-- `db.Save(&tag)` with a non-zero primary key: updates every live row
whose id matches the record's id. -/
def dbSaveTag (db : DB) (t : TagRec) : DB :=
  { db with
      tags := db.tags.map fun r =>
        if r.id == t.id && r.deletedAt.isNone then
          { r with tagName := t.tagName, category := t.category }
        else r }

/-- `db.Delete(&faq)` on a soft-deletable model: sets the deletion timestamp
on the live rows with that id; the row is not physically removed and the
join table is untouched. -/
def dbSoftDeleteFAQ (db : DB) (i : Nat) (now : Nat) : DB :=
  { db with
      faqs := db.faqs.map fun r =>
        if r.id == i && r.deletedAt.isNone then { r with deletedAt := some now } else r }

/-- `db.Delete(&tag)`: sets the deletion timestamp on the live tag rows with
that id; join rows referencing the tag remain. -/
def dbSoftDeleteTag (db : DB) (i : Nat) (now : Nat) : DB :=
  { db with
      tags := db.tags.map fun r =>
        if r.id == i && r.deletedAt.isNone then { r with deletedAt := some now } else r }

/-- Response statuses the handlers produce. -/
inductive Status
  | ok | created | badRequest | notFound | serverError
deriving DecidableEq, Repr

/-- JSON response bodies the handlers produce: an FAQ record, an FAQ row
with its preloaded tags, the list variants, a Tag record, an error object
and an acknowledgment object. -/
inductive Body
  | faqRec (f : FAQRec)
  | faqWithTags (row : FAQRow) (tags : List TagRow)
  | faqList (l : List (FAQRow × List TagRow))
  | tagRec (t : TagRec)
  | tagList (l : List TagRow)
  | errorMsg (msg : String)
  | ack (msg : String)
deriving DecidableEq, Repr

/-- An HTTP response: status plus JSON body. -/
structure Response where
  status : Status
  body : Body
deriving DecidableEq, Repr

/-- The outcome of `ShouldBindJSON`: a decoded payload, or the underlying
deserialization error text. -/
abbrev BindFAQ := Except String FAQPayload

/-- The outcome of `ShouldBindJSON` for a Tag body. -/
abbrev BindTag := Except String TagPayload

/-- `createFAQHandler` (src/main.go): bind the body (failure → 400 with the
generic "Invalid request payload" body, no store change); `db.Create` the
record (failure, modelled by `createFails` → 500 with a generic body, no
store change); success → 201 with the created record. -/
def createFAQHandler (db : DB) (bind : BindFAQ) (createFails : Bool) : DB × Response :=
  match bind with
  | .error _ => (db, ⟨.badRequest, .errorMsg "Invalid request payload"⟩)
  | .ok p =>
    if createFails then (db, ⟨.serverError, .errorMsg "Failed to create FAQ"⟩)
    else
      let res := dbCreateFAQ db (bindFAQ zeroFAQ p)
      (res.1, ⟨.created, .faqRec res.2⟩)

/-- `preloadFAQsHandler` (src/main.go): `db.Preload("Tags").Find(&faqs)`
(failure → 500 generic body); success → 200 with all live FAQs, each with
its live tags eagerly loaded. -/
def preloadFAQsHandler (db : DB) (findFails : Bool) : DB × Response :=
  if findFails then (db, ⟨.serverError, .errorMsg "Failed to fetch FAQs"⟩)
  else (db, ⟨.ok, .faqList ((liveFAQs db).map fun r => (r, liveTagsOf db r.id))⟩)

/-- `readFAQHandler` (src/main.go): `db.Preload("Tags").First(&faq, id)`;
any error (in particular no live row with that id) → 404 "Record not
found"; success → 200 with the row and its preloaded tags. -/
def readFAQHandler (db : DB) (i : Nat) : DB × Response :=
  match firstLiveFAQ db i with
  | none => (db, ⟨.notFound, .errorMsg "Record not found"⟩)
  | some row => (db, ⟨.ok, .faqWithTags row (liveTagsOf db i)⟩)

/-- `updateFAQHandler` (src/main.go): `db.First(&faq, id)` (no live row →
404); `ShouldBindJSON(&faq)` onto the loaded record (failure → 400 generic
body, no store change); `db.Save(&faq)` — its error is ignored in the
source, so a save failure (`saveFails`) leaves the store unchanged while
the handler still answers 200 with the merged record. -/
def updateFAQHandler (db : DB) (i : Nat) (bind : BindFAQ) (saveFails : Bool) : DB × Response :=
  match firstLiveFAQ db i with
  | none => (db, ⟨.notFound, .errorMsg "Record not found"⟩)
  | some row =>
    match bind with
    | .error _ => (db, ⟨.badRequest, .errorMsg "Invalid request payload"⟩)
    | .ok p =>
      let merged := bindFAQ (recOfRow row) p
      ((if saveFails then db else dbSaveFAQ db merged), ⟨.ok, .faqRec merged⟩)

/-- `deleteFAQHandler` (src/main.go): `db.First(&faq, id)` (no live row →
404); `db.Delete(&faq)` — its error is ignored in the source, so a delete
failure leaves the store unchanged while the handler still answers 200 with
the acknowledgment body. -/
def deleteFAQHandler (db : DB) (i : Nat) (now : Nat) (deleteFails : Bool) : DB × Response :=
  match firstLiveFAQ db i with
  | none => (db, ⟨.notFound, .errorMsg "Record not found"⟩)
  | some _ =>
    ((if deleteFails then db else dbSoftDeleteFAQ db i now),
     ⟨.ok, .ack "FAQ deleted successfully"⟩)

/-- `createTagHandler` (src/main.go): bind failure → 400 with the generic
"Invalid request payload" body; create failure → 500 generic body; success
→ 201 with the created tag. -/
def createTagHandler (db : DB) (bind : BindTag) (createFails : Bool) : DB × Response :=
  match bind with
  | .error _ => (db, ⟨.badRequest, .errorMsg "Invalid request payload"⟩)
  | .ok p =>
    if createFails then (db, ⟨.serverError, .errorMsg "Failed to create tag"⟩)
    else
      let res := dbCreateTag db (bindTag zeroTag p)
      (res.1, ⟨.created, .tagRec res.2⟩)

/-- `getTagsHandler` (src/main.go): `db.Find(&tags)` (failure → 500 generic
body); success → 200 with all live tags. -/
def getTagsHandler (db : DB) (findFails : Bool) : DB × Response :=
  if findFails then (db, ⟨.serverError, .errorMsg "Failed to fetch tags"⟩)
  else (db, ⟨.ok, .tagList (liveTags db)⟩)

/-- `updateTagHandler` (src/main.go): load (no live row → 404 "Tag not
found"); bind onto the loaded record (failure → 400 generic body);
`db.Save(&tag)` with its error ignored, answering 200 with the merged tag
even when the save fails. -/
def updateTagHandler (db : DB) (i : Nat) (bind : BindTag) (saveFails : Bool) : DB × Response :=
  match firstLiveTag db i with
  | none => (db, ⟨.notFound, .errorMsg "Tag not found"⟩)
  | some row =>
    match bind with
    | .error _ => (db, ⟨.badRequest, .errorMsg "Invalid request payload"⟩)
    | .ok p =>
      let merged := bindTag (recOfTagRow row) p
      ((if saveFails then db else dbSaveTag db merged), ⟨.ok, .tagRec merged⟩)

/-- `deleteTagHandler` (src/main.go): load (no live row → 404 "Tag not
found"); `db.Delete(&tag)` with its error ignored, answering 200 with the
acknowledgment body even when the delete fails. -/
def deleteTagHandler (db : DB) (i : Nat) (now : Nat) (deleteFails : Bool) : DB × Response :=
  match firstLiveTag db i with
  | none => (db, ⟨.notFound, .errorMsg "Tag not found"⟩)
  | some _ =>
    ((if deleteFails then db else dbSoftDeleteTag db i now),
     ⟨.ok, .ack "Tag deleted successfully"⟩)

/-- `createTag` of src/unnamed/part_000: unlike main.go's handler, a bind
failure answers 400 with `err.Error()` — the underlying deserialization
error text — as the body. -/
def part000CreateTag (db : DB) (bind : BindTag) (createFails : Bool) : DB × Response :=
  match bind with
  | .error e => (db, ⟨.badRequest, .errorMsg e⟩)
  | .ok p =>
    if createFails then (db, ⟨.serverError, .errorMsg "Failed to create tag"⟩)
    else
      let res := dbCreateTag db (bindTag zeroTag p)
      (res.1, ⟨.created, .tagRec res.2⟩)

/-- The routes `setupRouter` (src/main.go) registers, in registration
order. -/
def setupRouterRoutes : List (Method × String) :=
  [(.post, "/faqs"), (.get, "/faqs"), (.get, "/faqs/:id"),
   (.put, "/faqs/:id"), (.delete, "/faqs/:id"),
   (.post, "/tags"), (.get, "/tags"), (.put, "/tags/:id"), (.delete, "/tags/:id")]

/-- The routes `main` of src/unnamed/part_000 registers, in registration
order: the same nine plus the custom by-tag filter route. -/
def part000Routes : List (Method × String) :=
  [(.post, "/faqs"), (.get, "/faqs"), (.get, "/faqs/:id"),
   (.put, "/faqs/:id"), (.delete, "/faqs/:id"),
   (.post, "/tags"), (.get, "/tags"), (.put, "/tags/:id"), (.delete, "/tags/:id"),
   (.get, "/faqs_by_tag/:tag")]

/-- Store well-formedness maintained by the provider: the next FAQ id is
positive and strictly greater than the id of every row ever inserted into
the `faqs` table (soft-deleted rows included, since deletion never removes
a row). -/
def DB.WF (db : DB) : Prop :=
  0 < db.nextFAQId ∧ ∀ r ∈ db.faqs, r.id < db.nextFAQId

/-! Helper lemmas about the provider operations. -/

/-- A successful `db.First(&faq, id)` yields a live row of the table whose
primary key is the requested id. -/
theorem firstLiveFAQ_spec {db : DB} {i : Nat} {row : FAQRow}
    (h : firstLiveFAQ db i = some row) :
    row ∈ db.faqs ∧ row.id = i ∧ row.deletedAt = none := by
  have hmem := List.mem_of_find?_eq_some h
  have hp := List.find?_some h
  simp only [Bool.and_eq_true, beq_iff_eq, Option.isNone_iff_eq_none] at hp
  exact ⟨hmem, hp.1, hp.2⟩

/-- A successful `db.First(&tag, id)` yields a live row of the table whose
primary key is the requested id. -/
theorem firstLiveTag_spec {db : DB} {i : Nat} {row : TagRow}
    (h : firstLiveTag db i = some row) :
    row ∈ db.tags ∧ row.id = i ∧ row.deletedAt = none := by
  have hmem := List.mem_of_find?_eq_some h
  have hp := List.find?_some h
  simp only [Bool.and_eq_true, beq_iff_eq, Option.isNone_iff_eq_none] at hp
  exact ⟨hmem, hp.1, hp.2⟩

/-- After soft-deleting an FAQ id, no live row with that id remains. -/
theorem firstLiveFAQ_softDelete_self (db : DB) (i now : Nat) :
    firstLiveFAQ (dbSoftDeleteFAQ db i now) i = none := by
  rw [firstLiveFAQ, List.find?_eq_none]
  intro r hr
  simp only [dbSoftDeleteFAQ, List.mem_map] at hr
  obtain ⟨s, _, hs⟩ := hr
  by_cases hid : s.id = i
  · by_cases hdel : s.deletedAt = none
    · simp [hid, hdel] at hs
      simp [← hs]
    · simp [hid, hdel, Option.isNone_iff_eq_none] at hs
      simp [← hs, hid, Option.isNone_iff_eq_none, hdel]
  · simp [hid] at hs
    simp [← hs, hid]

/-- After soft-deleting a tag id, no live tag row with that id remains. -/
theorem firstLiveTag_softDelete_self (db : DB) (i now : Nat) :
    firstLiveTag (dbSoftDeleteTag db i now) i = none := by
  rw [firstLiveTag, List.find?_eq_none]
  intro r hr
  simp only [dbSoftDeleteTag, List.mem_map] at hr
  obtain ⟨s, _, hs⟩ := hr
  by_cases hid : s.id = i
  · by_cases hdel : s.deletedAt = none
    · simp [hid, hdel] at hs
      simp [← hs]
    · simp [hid, hdel, Option.isNone_iff_eq_none] at hs
      simp [← hs, hid, Option.isNone_iff_eq_none, hdel]
  · simp [hid] at hs
    simp [← hs, hid]

/-- No live FAQ row surviving a soft delete of id `i` carries id `i`. -/
theorem liveFAQs_softDelete_ne (db : DB) (i now : Nat) :
    ∀ r ∈ liveFAQs (dbSoftDeleteFAQ db i now), r.id ≠ i := by
  intro r hr
  have hr' := List.mem_filter.1 hr
  obtain ⟨hmap, hlive⟩ := hr'
  simp only [dbSoftDeleteFAQ, List.mem_map] at hmap
  obtain ⟨s, _, hs⟩ := hmap
  by_cases hid : s.id = i
  · by_cases hdel : s.deletedAt = none
    · simp [hid, hdel] at hs
      simp [← hs] at hlive
    · simp [hid, hdel, Option.isNone_iff_eq_none] at hs
      simp [← hs, hdel, Option.isNone_iff_eq_none] at hlive
  · simp [hid] at hs
    simp [← hs, hid]

/-- No live tag row surviving a soft delete of id `i` carries id `i`. -/
theorem liveTags_softDelete_ne (db : DB) (i now : Nat) :
    ∀ r ∈ liveTags (dbSoftDeleteTag db i now), r.id ≠ i := by
  intro r hr
  have hr' := List.mem_filter.1 hr
  obtain ⟨hmap, hlive⟩ := hr'
  simp only [dbSoftDeleteTag, List.mem_map] at hmap
  obtain ⟨s, _, hs⟩ := hmap
  by_cases hid : s.id = i
  · by_cases hdel : s.deletedAt = none
    · simp [hid, hdel] at hs
      simp [← hs] at hlive
    · simp [hid, hdel, Option.isNone_iff_eq_none] at hs
      simp [← hs, hdel, Option.isNone_iff_eq_none] at hlive
  · simp [hid] at hs
    simp [← hs, hid]

/-- The row a successful load found is still physically present after the
soft delete, now carrying the deletion timestamp. -/
theorem softDelete_retains_FAQ_row {db : DB} {i : Nat} {row : FAQRow} (now : Nat)
    (h : firstLiveFAQ db i = some row) :
    { row with deletedAt := some now } ∈ (dbSoftDeleteFAQ db i now).faqs := by
  obtain ⟨hmem, hid, hdel⟩ := firstLiveFAQ_spec h
  simp only [dbSoftDeleteFAQ]
  refine List.mem_map.2 ⟨row, hmem, ?_⟩
  simp [hid, hdel]

/-- The tag row a successful load found is still physically present after
the soft delete, now carrying the deletion timestamp. -/
theorem softDelete_retains_Tag_row {db : DB} {i : Nat} {row : TagRow} (now : Nat)
    (h : firstLiveTag db i = some row) :
    { row with deletedAt := some now } ∈ (dbSoftDeleteTag db i now).tags := by
  obtain ⟨hmem, hid, hdel⟩ := firstLiveTag_spec h
  simp only [dbSoftDeleteTag]
  refine List.mem_map.2 ⟨row, hmem, ?_⟩
  simp [hid, hdel]

/-! Concrete fixtures used by the witness theorems. -/

/-- The live FAQ row of the sample store. -/
def rowW : FAQRow := ⟨1, "Q1", "A1", none⟩

/-- The live tag row of the sample store. -/
def tagRowW : TagRow := ⟨1, "billing", "finance", none⟩

/-- A sample store: one live FAQ, one live tag, one join row linking them. -/
def dbW : DB :=
  { faqs := [rowW]
    tags := [tagRowW]
    faqTags := [(1, 1)]
    nextFAQId := 2
    nextTagId := 2 }

/-! Claim theorems. -/

/-- C1: for every existing FAQ record and well-formed update payload,
update-by-id binds the payload onto the loaded record before saving —
a field omitted from the payload keeps its stored value, a field present
with an empty value overwrites the stored value — and the response is the
merged record with OK status. -/
theorem updateFAQ_merges_payload_onto_loaded_record
    (db : DB) (i : Nat) (row : FAQRow) (p : FAQPayload)
    (h : firstLiveFAQ db i = some row) :
    (updateFAQHandler db i (Except.ok p) false).2.status = Status.ok ∧
    (updateFAQHandler db i (Except.ok p) false).2.body
      = Body.faqRec (bindFAQ (recOfRow row) p) ∧
    (updateFAQHandler db i (Except.ok p) false).1
      = dbSaveFAQ db (bindFAQ (recOfRow row) p) ∧
    (p.question = none → (bindFAQ (recOfRow row) p).question = row.question) ∧
    (p.answer = none → (bindFAQ (recOfRow row) p).answer = row.answer) ∧
    (∀ s, p.answer = some s → (bindFAQ (recOfRow row) p).answer = s) := by
  refine ⟨by simp [updateFAQHandler, h], by simp [updateFAQHandler, h],
          by simp [updateFAQHandler, h], fun hq => ?_, fun ha => ?_, fun s ha => ?_⟩ <;>
    simp [bindFAQ, recOfRow, *]

/-- Witness for C1: updating only the question of the sample FAQ keeps the
stored answer; setting the answer to the empty string overwrites it. -/
theorem updateFAQ_merges_payload_onto_loaded_record_witness :
    (updateFAQHandler dbW 1 (Except.ok ⟨none, some "Q2", none, none⟩) false).2.body
      = Body.faqRec (bindFAQ (recOfRow rowW) ⟨none, some "Q2", none, none⟩) ∧
    (bindFAQ (recOfRow rowW) ⟨none, some "Q2", none, none⟩).answer = rowW.answer ∧
    (bindFAQ (recOfRow rowW) ⟨none, some "Q2", some "", none⟩).answer = "" :=
  have h : firstLiveFAQ dbW 1 = some rowW := by rfl
  ⟨(updateFAQ_merges_payload_onto_loaded_record dbW 1 rowW _ h).2.1,
   (updateFAQ_merges_payload_onto_loaded_record dbW 1 rowW _ h).2.2.2.2.1 rfl,
   (updateFAQ_merges_payload_onto_loaded_record dbW 1 rowW
      ⟨none, some "Q2", some "", none⟩ h).2.2.2.2.2 "" rfl⟩

/-- C2: deleting an existing live FAQ (or tag) soft-deletes it — the
subsequent read answers not-found, the record vanishes from list results,
yet a row with that id still physically exists in the table carrying the
deletion timestamp. -/
theorem softDelete_hides_but_retains
    (db db2 : DB) (i j now now2 : Nat) (row : FAQRow) (trow : TagRow)
    (hf : firstLiveFAQ db i = some row) (ht : firstLiveTag db2 j = some trow) :
    (deleteFAQHandler db i now false).2.status = Status.ok ∧
    (readFAQHandler (deleteFAQHandler db i now false).1 i).2
      = ⟨Status.notFound, Body.errorMsg "Record not found"⟩ ∧
    (∀ r ∈ liveFAQs (deleteFAQHandler db i now false).1, r.id ≠ i) ∧
    (∃ r ∈ (deleteFAQHandler db i now false).1.faqs,
        r.id = i ∧ r.deletedAt = some now) ∧
    (deleteTagHandler db2 j now2 false).2.status = Status.ok ∧
    (∀ r ∈ liveTags (deleteTagHandler db2 j now2 false).1, r.id ≠ j) ∧
    (∃ r ∈ (deleteTagHandler db2 j now2 false).1.tags,
        r.id = j ∧ r.deletedAt = some now2) := by
  obtain ⟨_, hid, _⟩ := firstLiveFAQ_spec hf
  obtain ⟨_, hjd, _⟩ := firstLiveTag_spec ht
  refine ⟨by simp [deleteFAQHandler, hf],
          by simp [readFAQHandler, deleteFAQHandler, hf, firstLiveFAQ_softDelete_self],
          ?_, ?_, by simp [deleteTagHandler, ht], ?_, ?_⟩
  · simpa [deleteFAQHandler, hf] using liveFAQs_softDelete_ne db i now
  · refine ⟨{ row with deletedAt := some now }, ?_, hid, rfl⟩
    simpa [deleteFAQHandler, hf] using softDelete_retains_FAQ_row now hf
  · simpa [deleteTagHandler, ht] using liveTags_softDelete_ne db2 j now2
  · refine ⟨{ trow with deletedAt := some now2 }, ?_, hjd, rfl⟩
    simpa [deleteTagHandler, ht] using softDelete_retains_Tag_row now2 ht

/-- Witness for C2: deleting the sample FAQ and the sample tag. -/
theorem softDelete_hides_but_retains_witness :
    (deleteFAQHandler dbW 1 5 false).2.status = Status.ok ∧
    (readFAQHandler (deleteFAQHandler dbW 1 5 false).1 1).2
      = ⟨Status.notFound, Body.errorMsg "Record not found"⟩ ∧
    (∃ r ∈ (deleteFAQHandler dbW 1 5 false).1.faqs,
        r.id = 1 ∧ r.deletedAt = some 5) :=
  have h := softDelete_hides_but_retains dbW dbW 1 1 5 7 rowW tagRowW (by rfl) (by rfl)
  ⟨h.1, h.2.1, h.2.2.2.1⟩

/-- C3 counterexample: on the sample store the save step of update-by-id
fails, yet the handler answers OK with the merged record rather than a
server error — src/main.go's `updateFAQHandler` ignores the result of
`db.Save`. -/
theorem updateFAQ_save_failure_not_server_error
    : (updateFAQHandler dbW 1 (Except.ok ⟨none, some "Q2", none, none⟩) true).2.status
        = Status.ok ∧
      (updateFAQHandler dbW 1 (Except.ok ⟨none, some "Q2", none, none⟩) true).2.status
        ≠ Status.serverError := by
  exact ⟨rfl, by decide⟩

/-- C3 amended: a persistence failure in the create and list/fetch steps is
answered with a server-error status and a fixed generic body that never
contains the underlying cause; but the save step of update-by-id and the
delete step of delete-by-id (FAQ and tag alike, in src/main.go) ignore the
provider's error and answer OK — with the merged record or the success
acknowledgment — leaving the store unchanged. -/
theorem persistence_failure_behavior
    (db : DB) (i j now : Nat) (row : FAQRow) (trow : TagRow)
    (p : FAQPayload) (pt : TagPayload)
    (hf : firstLiveFAQ db i = some row) (ht : firstLiveTag db j = some trow) :
    (createFAQHandler db (Except.ok p) true).2
      = ⟨Status.serverError, Body.errorMsg "Failed to create FAQ"⟩ ∧
    (createFAQHandler db (Except.ok p) true).1 = db ∧
    (preloadFAQsHandler db true).2
      = ⟨Status.serverError, Body.errorMsg "Failed to fetch FAQs"⟩ ∧
    (createTagHandler db (Except.ok pt) true).2
      = ⟨Status.serverError, Body.errorMsg "Failed to create tag"⟩ ∧
    (getTagsHandler db true).2
      = ⟨Status.serverError, Body.errorMsg "Failed to fetch tags"⟩ ∧
    (updateFAQHandler db i (Except.ok p) true).2
      = ⟨Status.ok, Body.faqRec (bindFAQ (recOfRow row) p)⟩ ∧
    (updateFAQHandler db i (Except.ok p) true).1 = db ∧
    (deleteFAQHandler db i now true).2
      = ⟨Status.ok, Body.ack "FAQ deleted successfully"⟩ ∧
    (deleteFAQHandler db i now true).1 = db ∧
    (updateTagHandler db j (Except.ok pt) true).2
      = ⟨Status.ok, Body.tagRec (bindTag (recOfTagRow trow) pt)⟩ ∧
    (updateTagHandler db j (Except.ok pt) true).1 = db ∧
    (deleteTagHandler db j now true).2
      = ⟨Status.ok, Body.ack "Tag deleted successfully"⟩ ∧
    (deleteTagHandler db j now true).1 = db := by
  refine ⟨?_, ?_, ?_, ?_, ?_, ?_, ?_, ?_, ?_, ?_, ?_, ?_, ?_⟩ <;>
    simp [createFAQHandler, preloadFAQsHandler, createTagHandler, getTagsHandler,
          updateFAQHandler, deleteFAQHandler, updateTagHandler, deleteTagHandler, hf, ht]

/-- Witness for the amended C3 at the sample store. -/
theorem persistence_failure_behavior_witness :
    (createFAQHandler dbW (Except.ok ⟨none, some "Q9", some "A9", none⟩) true).2
      = ⟨Status.serverError, Body.errorMsg "Failed to create FAQ"⟩ ∧
    (updateFAQHandler dbW 1 (Except.ok ⟨none, some "Q9", some "A9", none⟩) true).1 = dbW ∧
    (deleteFAQHandler dbW 1 5 true).2 = ⟨Status.ok, Body.ack "FAQ deleted successfully"⟩ :=
  have h := persistence_failure_behavior dbW 1 1 5 rowW tagRowW
    ⟨none, some "Q9", some "A9", none⟩ ⟨none, some "t", some "c"⟩ (by rfl) (by rfl)
  ⟨h.1, h.2.2.2.2.2.2.1, h.2.2.2.2.2.2.2.1⟩

/-- C4 counterexample: part_000's `createTag` answers a malformed body with
the underlying deserialization error text as the body, not the generic
"Invalid request payload" message. -/
theorem part000CreateTag_leaks_bind_error
    : (part000CreateTag dbW (Except.error "json: cannot unmarshal number") false).2
        = ⟨Status.badRequest, Body.errorMsg "json: cannot unmarshal number"⟩ ∧
      Body.errorMsg "json: cannot unmarshal number"
        ≠ Body.errorMsg "Invalid request payload" := by
  exact ⟨rfl, by decide⟩

/-- C4 amended: a body that fails to deserialize makes every create/update
handler answer a 400 client error and leaves the store completely
unmodified; the src/main.go handlers answer the generic "Invalid request
payload" body, while part_000's `createTag` answers the underlying
deserialization error text. -/
theorem malformed_body_behavior
    (db : DB) (e : String) (i j : Nat) (row : FAQRow) (trow : TagRow) (cf sf : Bool)
    (hf : firstLiveFAQ db i = some row) (ht : firstLiveTag db j = some trow) :
    (createFAQHandler db (Except.error e) cf).2
      = ⟨Status.badRequest, Body.errorMsg "Invalid request payload"⟩ ∧
    (createFAQHandler db (Except.error e) cf).1 = db ∧
    (createTagHandler db (Except.error e) cf).2
      = ⟨Status.badRequest, Body.errorMsg "Invalid request payload"⟩ ∧
    (createTagHandler db (Except.error e) cf).1 = db ∧
    (updateFAQHandler db i (Except.error e) sf).2
      = ⟨Status.badRequest, Body.errorMsg "Invalid request payload"⟩ ∧
    (updateFAQHandler db i (Except.error e) sf).1 = db ∧
    (updateTagHandler db j (Except.error e) sf).2
      = ⟨Status.badRequest, Body.errorMsg "Invalid request payload"⟩ ∧
    (updateTagHandler db j (Except.error e) sf).1 = db ∧
    (part000CreateTag db (Except.error e) cf).2
      = ⟨Status.badRequest, Body.errorMsg e⟩ ∧
    (part000CreateTag db (Except.error e) cf).1 = db := by
  refine ⟨?_, ?_, ?_, ?_, ?_, ?_, ?_, ?_, ?_, ?_⟩ <;>
    simp [createFAQHandler, createTagHandler, updateFAQHandler, updateTagHandler,
          part000CreateTag, hf, ht]

/-- Witness for the amended C4 at the sample store. -/
theorem malformed_body_behavior_witness :
    (createFAQHandler dbW (Except.error "bad json") false).2
      = ⟨Status.badRequest, Body.errorMsg "Invalid request payload"⟩ ∧
    (updateFAQHandler dbW 1 (Except.error "bad json") false).1 = dbW ∧
    (part000CreateTag dbW (Except.error "bad json") false).2
      = ⟨Status.badRequest, Body.errorMsg "bad json"⟩ :=
  have h := malformed_body_behavior dbW "bad json" 1 1 rowW tagRowW false false
    (by rfl) (by rfl)
  ⟨h.1, h.2.2.2.2.2.1, h.2.2.2.2.2.2.2.2.1⟩

/-- C5: an id that matches no non-deleted record makes read-by-id,
update-by-id and delete-by-id (FAQ, and likewise the tag update/delete)
answer a not-found status with a generic error body and leave the store
unchanged. -/
theorem missing_id_answers_not_found
    (db : DB) (i now : Nat) (bind : BindFAQ) (bindT : BindTag) (sf df : Bool)
    (hf : firstLiveFAQ db i = none) (ht : firstLiveTag db i = none) :
    (readFAQHandler db i).2 = ⟨Status.notFound, Body.errorMsg "Record not found"⟩ ∧
    (readFAQHandler db i).1 = db ∧
    (updateFAQHandler db i bind sf).2
      = ⟨Status.notFound, Body.errorMsg "Record not found"⟩ ∧
    (updateFAQHandler db i bind sf).1 = db ∧
    (deleteFAQHandler db i now df).2
      = ⟨Status.notFound, Body.errorMsg "Record not found"⟩ ∧
    (deleteFAQHandler db i now df).1 = db ∧
    (updateTagHandler db i bindT sf).2
      = ⟨Status.notFound, Body.errorMsg "Tag not found"⟩ ∧
    (updateTagHandler db i bindT sf).1 = db ∧
    (deleteTagHandler db i now df).2
      = ⟨Status.notFound, Body.errorMsg "Tag not found"⟩ ∧
    (deleteTagHandler db i now df).1 = db := by
  refine ⟨?_, ?_, ?_, ?_, ?_, ?_, ?_, ?_, ?_, ?_⟩ <;>
    simp [readFAQHandler, updateFAQHandler, deleteFAQHandler,
          updateTagHandler, deleteTagHandler, hf, ht]

/-- Witness for C5 at an id the sample store never assigned. -/
theorem missing_id_answers_not_found_witness :
    (readFAQHandler dbW 9).2 = ⟨Status.notFound, Body.errorMsg "Record not found"⟩ ∧
    (updateFAQHandler dbW 9 (Except.ok ⟨none, some "Q", none, none⟩) false).1 = dbW ∧
    (deleteTagHandler dbW 9 5 false).2 = ⟨Status.notFound, Body.errorMsg "Tag not found"⟩ :=
  have h := missing_id_answers_not_found dbW 9 5
    (Except.ok ⟨none, some "Q", none, none⟩) (Except.ok ⟨none, some "t", none⟩)
    false false (by rfl) (by rfl)
  ⟨h.1, h.2.2.2.1, h.2.2.2.2.2.2.2.2.1⟩

/-- C6: creating an FAQ from a valid payload (no id of its own, with a
question and an answer) assigns the provider's next id — nonzero and
distinct from the id of every previously created FAQ — answers 201 with
the created record, and a subsequent read-by-id on that id answers 200
with a record whose question and answer equal the payload's. -/
theorem create_then_read_roundtrip
    (db : DB) (p : FAQPayload) (q a : String)
    (hwf : db.WF) (hid : p.id = none) (hq : p.question = some q)
    (ha : p.answer = some a) :
    (createFAQHandler db (Except.ok p) false).2.status = Status.created ∧
    (createFAQHandler db (Except.ok p) false).2.body
      = Body.faqRec ⟨db.nextFAQId, q, a, p.tags.getD []⟩ ∧
    db.nextFAQId ≠ 0 ∧
    (∀ r ∈ db.faqs, r.id ≠ db.nextFAQId) ∧
    (readFAQHandler (createFAQHandler db (Except.ok p) false).1 db.nextFAQId).2.status
      = Status.ok ∧
    (readFAQHandler (createFAQHandler db (Except.ok p) false).1 db.nextFAQId).2.body
      = Body.faqWithTags ⟨db.nextFAQId, q, a, none⟩
          (liveTagsOf (createFAQHandler db (Except.ok p) false).1 db.nextFAQId) := by
  obtain ⟨hpos, hlt⟩ := hwf
  have hnone : db.faqs.find?
      (fun r => r.id == db.nextFAQId && r.deletedAt.isNone) = none := by
    rw [List.find?_eq_none]
    intro x hx
    simp only [Bool.and_eq_true, beq_iff_eq, Option.isNone_iff_eq_none, not_and]
    intro hxe
    exact absurd hxe (Nat.ne_of_lt (hlt x hx))
  have hfind : firstLiveFAQ (createFAQHandler db (Except.ok p) false).1 db.nextFAQId
      = some ⟨db.nextFAQId, q, a, none⟩ := by
    simp [createFAQHandler, dbCreateFAQ, bindFAQ, zeroFAQ, hid, hq, ha, rowOfFAQ,
          firstLiveFAQ, hnone]
  refine ⟨rfl, ?_, Nat.pos_iff_ne_zero.1 hpos, fun r hr => Nat.ne_of_lt (hlt r hr), ?_, ?_⟩
  · simp [createFAQHandler, dbCreateFAQ, bindFAQ, zeroFAQ, hid, hq, ha]
  · simp [readFAQHandler, hfind]
  · simp [readFAQHandler, hfind]

/-- Witness for C6: creating a second FAQ in the sample store and reading
it back. -/
theorem create_then_read_roundtrip_witness :
    (createFAQHandler dbW (Except.ok ⟨none, some "Q2", some "A2", none⟩) false).2.status
      = Status.created ∧
    dbW.nextFAQId ≠ 0 ∧
    (readFAQHandler
        (createFAQHandler dbW (Except.ok ⟨none, some "Q2", some "A2", none⟩) false).1
        dbW.nextFAQId).2.status = Status.ok :=
  have h := create_then_read_roundtrip dbW ⟨none, some "Q2", some "A2", none⟩ "Q2" "A2"
    ⟨by decide, by decide⟩ rfl rfl rfl
  ⟨h.1, h.2.2.1, h.2.2.2.2.1⟩

/-- C7: no FAQ create or update request ever changes the `tags` table —
the handlers only insert FAQ rows and join rows, never Tag rows. -/
theorem faq_requests_preserve_tag_rows
    (db : DB) (bind : BindFAQ) (i : Nat) (cf sf : Bool) :
    (createFAQHandler db bind cf).1.tags = db.tags ∧
    (updateFAQHandler db i bind sf).1.tags = db.tags := by
  constructor
  · cases bind with
    | error e => rfl
    | ok p => cases cf <;> simp [createFAQHandler, dbCreateFAQ]
  · cases h : firstLiveFAQ db i with
    | none => simp [updateFAQHandler, h]
    | some row =>
      cases bind with
      | error e => simp [updateFAQHandler, h]
      | ok p => cases sf <;> simp [updateFAQHandler, h, dbSaveFAQ]

/-- The nine method+path rows of the spec's HTTP-surface table, written
from the spec for comparison with the route tables translated from the
source. -/
def specHTTPSurface : List (Method × String) :=
  [(.post, "/faqs"), (.get, "/faqs"), (.get, "/faqs/:id"),
   (.put, "/faqs/:id"), (.delete, "/faqs/:id"),
   (.post, "/tags"), (.get, "/tags"), (.put, "/tags/:id"), (.delete, "/tags/:id")]

/-- C8 counterexample: the route wiring of src/unnamed/part_000 binds a
tenth route, GET /faqs_by_tag/:tag — a route that lists FAQs filtered by
tag — so the repository's routers do not bind only the nine surface
combinations. -/
theorem part000_binds_by_tag_route
    : (Method.get, "/faqs_by_tag/:tag") ∈ part000Routes ∧
      part000Routes.length = 10 := by
  exact ⟨by decide, rfl⟩

/-- C8 amended: `setupRouter` of src/main.go binds exactly the nine
method+path combinations of the HTTP surface — in particular no
read-single-tag route and no by-tag filter route — while the variant
wiring of src/unnamed/part_000 binds those same nine plus
GET /faqs_by_tag/:tag. -/
theorem route_surface
    : setupRouterRoutes = specHTTPSurface ∧
      setupRouterRoutes.length = 9 ∧
      (Method.get, "/tags/:id") ∉ setupRouterRoutes ∧
      (Method.get, "/faqs_by_tag/:tag") ∉ setupRouterRoutes ∧
      part000Routes = specHTTPSurface ++ [(Method.get, "/faqs_by_tag/:tag")] := by
  exact ⟨rfl, rfl, by decide, by decide, rfl⟩

/-- C9: update-by-id binds the body onto the loaded record including its
primary key, so a payload carrying an id makes the saved and returned
record carry the payload's id instead of the path id, and only a payload
omitting the id keeps the path-addressed id. -/
theorem update_id_comes_from_payload
    (db : DB) (i j : Nat) (row : FAQRow) (p : FAQPayload)
    (h : firstLiveFAQ db i = some row) :
    (updateFAQHandler db i (Except.ok p) false).2.body
      = Body.faqRec (bindFAQ (recOfRow row) p) ∧
    (updateFAQHandler db i (Except.ok p) false).1
      = dbSaveFAQ db (bindFAQ (recOfRow row) p) ∧
    (p.id = some j → (bindFAQ (recOfRow row) p).id = j) ∧
    (p.id = none → (bindFAQ (recOfRow row) p).id = i) := by
  obtain ⟨_, hid, _⟩ := firstLiveFAQ_spec h
  exact ⟨by simp [updateFAQHandler, h], by simp [updateFAQHandler, h],
         fun hj => by simp [bindFAQ, hj],
         fun hn => by simp [bindFAQ, recOfRow, hn, hid]⟩

/-- Witness for C9: a payload with id 42 sent to path id 1 of the sample
store yields a record carrying id 42. -/
theorem update_id_comes_from_payload_witness :
    (bindFAQ (recOfRow rowW) ⟨some 42, none, none, none⟩).id = 42 ∧
    (updateFAQHandler dbW 1 (Except.ok ⟨some 42, none, none, none⟩) false).2.body
      = Body.faqRec (bindFAQ (recOfRow rowW) ⟨some 42, none, none, none⟩) :=
  have h := update_id_comes_from_payload dbW 1 42 rowW
    ⟨some 42, none, none, none⟩ (by rfl)
  ⟨h.2.2.1 rfl, h.1⟩

/-- No tag surviving the eager load after a soft delete of tag id `j`
carries id `j`, whatever FAQ the load is for. -/
theorem liveTagsOf_softDelete_ne (db : DB) (j now fid : Nat) :
    ∀ t ∈ liveTagsOf (dbSoftDeleteTag db j now) fid, t.id ≠ j := by
  intro t ht
  have ht' := List.mem_filter.1 ht
  obtain ⟨hmap, hcond⟩ := ht'
  have hlive : t.deletedAt.isNone = true := by
    simp only [Bool.and_eq_true] at hcond
    exact hcond.1
  simp only [dbSoftDeleteTag, List.mem_map] at hmap
  obtain ⟨s, _, hs⟩ := hmap
  by_cases hid : s.id = j
  · by_cases hdel : s.deletedAt = none
    · simp [hid, hdel] at hs
      simp [← hs] at hlive
    · simp [hid, hdel, Option.isNone_iff_eq_none] at hs
      simp [← hs, hdel, Option.isNone_iff_eq_none] at hlive
  · simp [hid] at hs
    simp [← hs, hid]

/-- C10: after a tag is soft-deleted it no longer appears in the tags
collection of any FAQ produced by the eager load — neither in read-by-id
nor in list-with-tags responses — even though delete-tag leaves every
join-table row in place. -/
theorem deleted_tag_excluded_from_eager_load
    (db : DB) (j now : Nat) (trow : TagRow)
    (h : firstLiveTag db j = some trow) :
    (∀ fid, ∀ t ∈ liveTagsOf (deleteTagHandler db j now false).1 fid, t.id ≠ j) ∧
    (deleteTagHandler db j now false).1.faqTags = db.faqTags ∧
    (∀ fid row tags,
      (readFAQHandler (deleteTagHandler db j now false).1 fid).2.body
        = Body.faqWithTags row tags → ∀ t ∈ tags, t.id ≠ j) ∧
    (∀ l, (preloadFAQsHandler (deleteTagHandler db j now false).1 false).2.body
        = Body.faqList l → ∀ pr ∈ l, ∀ t ∈ pr.2, t.id ≠ j) := by
  have hdb : (deleteTagHandler db j now false).1 = dbSoftDeleteTag db j now := by
    simp [deleteTagHandler, h]
  have hlive : ∀ fid, ∀ t ∈ liveTagsOf (deleteTagHandler db j now false).1 fid, t.id ≠ j := by
    intro fid
    rw [hdb]
    exact liveTagsOf_softDelete_ne db j now fid
  refine ⟨hlive, by rw [hdb]; rfl, ?_, ?_⟩
  · intro fid row tags hbody
    cases hfid : firstLiveFAQ (deleteTagHandler db j now false).1 fid with
    | none => simp [readFAQHandler, hfid] at hbody
    | some r =>
      simp only [readFAQHandler, hfid, Body.faqWithTags.injEq] at hbody
      intro t ht
      exact hlive fid t (hbody.2 ▸ ht)
  · intro l hl
    simp only [preloadFAQsHandler, if_neg Bool.false_ne_true, Body.faqList.injEq] at hl
    intro pr hpr t ht
    rw [← hl] at hpr
    obtain ⟨r, _, hpr'⟩ := List.mem_map.1 hpr
    have : pr.2 = liveTagsOf (deleteTagHandler db j now false).1 r.id := by
      rw [← hpr']
    exact hlive r.id t (this ▸ ht)

/-- Witness for C10: deleting the sample tag, which is joined to the
sample FAQ, removes it from that FAQ's eager load while the join row
survives. -/
theorem deleted_tag_excluded_from_eager_load_witness :
    (deleteTagHandler dbW 1 9 false).1.faqTags = dbW.faqTags ∧
    (∀ t ∈ liveTagsOf (deleteTagHandler dbW 1 9 false).1 1, t.id ≠ 1) :=
  have h := deleted_tag_excluded_from_eager_load dbW 1 9 tagRowW (by rfl)
  ⟨h.2.1, h.1 1⟩

end RestFAQ
